import Mathlib

/-!
Shallow embedding of `kafkian/producer.py` (class `Producer`).

The Python producer wraps a Confluent Kafka client.  We model the observable
behaviour of each method as a value: methods that only call out to the
transport, the logger or registered callbacks are modelled as functions
returning the list of external `Effect`s they perform, in order; exceptions
escaping a method are modelled with `Except` (for serializers) or with an
`Option Nat` component naming the raising callback (for the delivery
dispatcher).  Python `None` is `PyObj.none`; Python dictionaries of
configuration are total functions `String → Option CVal`, with `{**a, **b}`
modelled by `Dict.merge a b` and item assignment by `Dict.insert`.
-/

namespace Kafkian

/-- Dynamically typed Python values as they appear at the producer boundary:
`None`, byte strings, text strings, integers and booleans. -/
inductive PyObj where
  | none
  | bytes (b : List Nat)
  | str (s : String)
  | int (i : Int)
  | bool (b : Bool)
deriving DecidableEq, Repr

/-- Log severities used by the producer's structlog calls. -/
inductive LogLevel where
  | debug
  | info
  | warning
  | error
deriving DecidableEq, Repr

/-- The delivered message handed to `_on_delivery` by the transport:
`msg.topic()`, `msg.key()`, `msg.value()`, `msg.partition()`. -/
structure Msg where
  topic : String
  key : PyObj
  value : PyObj
  partition : Int
deriving DecidableEq, Repr

/-- The argument shapes with which `_on_delivery` invokes a callback:
`cb(msg, err)` in the failure branch, `cb(err)` in the success branch. -/
inductive CbArg where
  | msgErr (m : Msg) (e : String)
  | errArg (e : Option String)
deriving DecidableEq, Repr

/-- The `timeout` parameter of `Producer.flush`: Python `None` or a number. -/
inductive Timeout where
  | none
  | int (i : Int)
deriving DecidableEq, Repr

/-- Python truthiness of the `timeout` value: `None` and `0` are falsy,
every other number is truthy.  This is the test `if timeout:` performs. -/
def Timeout.truthy : Timeout → Bool
  | Timeout.none => false
  | Timeout.int i => decide (i ≠ 0)

/-- The numeric value forwarded to `self._producer_impl.flush(timeout)`
when the timeout is truthy. -/
def Timeout.toVal : Timeout → Int
  | Timeout.none => 0
  | Timeout.int i => i

/-- Externally observable actions of the producer, in program order:
structured log calls, calls into the wrapped Confluent producer
(`produce`, `flush`, `poll`), `atexit` registration, creation of the
wrapped producer, and invocations of registered delivery callbacks. -/
inductive Effect where
  | log (lvl : LogLevel) (event : String) (fields : List (String × PyObj))
  | implProduce (topic : String) (key : PyObj) (value : PyObj)
  | implFlushTimed (t : Int)
  | implFlush
  | implPoll (t : Int)
  | registerAtexit
  | createImpl
  | invokeCb (id : Nat) (arg : CbArg)
deriving DecidableEq, Repr

/-- A registered delivery callback: an identity, plus whether calling it
raises an exception (Python callbacks are arbitrary callables). -/
structure Obs where
  id : Nat
  raises : Bool
deriving DecidableEq, Repr

/-- A key or value serializer: receives the object, the topic and the
`is_key` flag, and either returns the serialized object or raises. -/
abbrev Serde := PyObj → String → Bool → Except String PyObj

/-- The state of a `Producer` instance after `__init__` stored its
collaborators: the two serializers and the two optional callback lists. -/
structure Producer where
  value_serializer : Serde
  key_serializer : Serde
  success_callbacks : Option (List Obs)
  error_callbacks : Option (List Obs)

/-- Values stored in a configuration dictionary: strings, booleans,
integers, or bound callback handlers. -/
inductive Handler where
  | onDelivery
  | onError
  | onThrottle
  | onStats
  | user (n : Nat)
deriving DecidableEq, Repr

/-- A configuration value. -/
inductive CVal where
  | str (s : String)
  | bool (b : Bool)
  | int (i : Int)
  | handler (h : Handler)
deriving DecidableEq, Repr

/-- A Python dict of configuration options, as a partial map. -/
def Dict : Type := String → Option CVal

/-- Dict item assignment `d[k] = v`. -/
def Dict.insert (d : Dict) (k : String) (v : CVal) : Dict :=
  fun q => if q = k then some v else d q

/-- Python `{**a, **b}`: keys of both, `b` wins on collision. -/
def Dict.merge (a b : Dict) : Dict :=
  fun q => match b q with
    | some v => some v
    | Option.none => a q

/-- `Producer.DEFAULT_CONFIG`, with `socket.gethostname()` abstracted as
the parameter `hostname`. -/
def DEFAULT_CONFIG (hostname : String) : Dict := fun k =>
  if k = "acks" then some (CVal.str "all")
  else if k = "api.version.request" then some (CVal.bool true)
  else if k = "client.id" then some (CVal.str hostname)
  else if k = "log.connection.close" then some (CVal.bool false)
  else if k = "max.in.flight" then some (CVal.int 1)
  else if k = "queue.buffering.max.ms" then some (CVal.int 100)
  else if k = "statistics.interval.ms" then some (CVal.int 15000)
  else Option.none

/-- The configuration handed to the wrapped Confluent producer by
`__init__`: `config = {**DEFAULT_CONFIG, **config}` followed by the four
assignments binding `on_delivery`, `error_cb`, `throttle_cb` and
`stats_cb` to the producer's own methods. -/
def producerConfig (hostname : String) (user : Dict) : Dict :=
  (((((DEFAULT_CONFIG hostname).merge user).insert
      "on_delivery" (CVal.handler Handler.onDelivery)).insert
      "error_cb" (CVal.handler Handler.onError)).insert
      "throttle_cb" (CVal.handler Handler.onThrottle)).insert
      "stats_cb" (CVal.handler Handler.onStats)

/-- The four configuration keys `__init__` overwrites with the producer's
own callback bindings. -/
def callbackKeys : List String :=
  ["on_delivery", "error_cb", "throttle_cb", "stats_cb"]

/-- `Producer.flush(timeout)`: log at info, then either the timed or the
untimed flush of the wrapped producer, chosen by `if timeout:`. -/
def Producer.flushEffects (timeout : Timeout) : List Effect :=
  Effect.log LogLevel.info "Flushing producer" [] ::
    (if timeout.truthy then
      [Effect.implFlushTimed timeout.toVal]
    else
      [Effect.implFlush])

/-- `Producer._close`: `self.flush()`, i.e. a flush with the default
`timeout=None`. -/
def Producer.closeEffects : List Effect :=
  Producer.flushEffects Timeout.none

/-- The effect sequence of `Producer.__init__` after the configuration is
built: log, `atexit.register(self._close)`, then creation of the wrapped
Confluent producer.  No message can be sent before `__init__` returns. -/
def Producer.initEffects : List Effect :=
  [Effect.log LogLevel.info "Initializing producer" [],
   Effect.registerAtexit,
   Effect.createImpl]

/-- `Producer.produce(topic, key, value, sync)`:
serialize the key with `is_key=True`; if the value is not `None`,
serialize it too (a `None` value is a tombstone and is passed through);
then `_produce` into the wrapped producer, and if `sync`, `self.flush()`.
A serializer exception aborts the call before any transport effect. -/
def Producer.produce (p : Producer) (topic : String) (key value : PyObj)
    (sync : Bool) : Except String (List Effect) :=
  match p.key_serializer key topic true with
  | Except.error e => Except.error e
  | Except.ok kb =>
    match (if value ≠ PyObj.none then p.value_serializer value topic false
           else Except.ok value) with
    | Except.error e => Except.error e
    | Except.ok vb =>
      Except.ok (Effect.implProduce topic kb vb ::
        (if sync then Producer.flushEffects Timeout.none else []))

/-- Run a list of callbacks in order on a fixed argument, as the `for`
loops in `_on_delivery` do, with no exception handling: each callback is
invoked; if it raises, the loop stops and the exception (tagged with the
callback id) propagates out of the dispatcher. -/
def invokeAll (cbs : List Obs) (arg : CbArg) : List Effect × Option Nat :=
  match cbs with
  | [] => ([], Option.none)
  | c :: rest =>
    if c.raises then
      ([Effect.invokeCb c.id arg], some c.id)
    else
      let r := invokeAll rest arg
      (Effect.invokeCb c.id arg :: r.1, r.2)

/-- The warning log emitted in the failure branch of `_on_delivery`. -/
def logFailure (e : String) (msg : Msg) : Effect :=
  Effect.log LogLevel.warning "Producer send failed"
    [("error_message", PyObj.str e),
     ("topic", PyObj.str msg.topic),
     ("key", msg.key),
     ("partition", PyObj.int msg.partition)]

/-- The debug log emitted in the success branch of `_on_delivery`. -/
def logSuccess (msg : Msg) : Effect :=
  Effect.log LogLevel.debug "Producer send succeeded"
    [("topic", PyObj.str msg.topic),
     ("key", msg.key),
     ("partition", PyObj.int msg.partition)]

/-- `Producer._on_delivery(err, msg)`: on failure (`err` truthy) log at
warning and run the error callbacks with `cb(msg, err)`; on success log at
debug and run the success callbacks with `cb(err)` — note the success
branch passes the (falsy) `err`, not `msg`.  The second component is the
exception escaping the dispatcher, if any. -/
def Producer.onDelivery (p : Producer) (err : Option String) (msg : Msg) :
    List Effect × Option Nat :=
  match err with
  | some e =>
    match p.error_callbacks with
    | Option.none => ([logFailure e msg], Option.none)
    | some cbs =>
      let r := invokeAll cbs (CbArg.msgErr msg e)
      (logFailure e msg :: r.1, r.2)
  | Option.none =>
    match p.success_callbacks with
    | Option.none => ([logSuccess msg], Option.none)
    | some cbs =>
      let r := invokeAll cbs (CbArg.errArg Option.none)
      (logSuccess msg :: r.1, r.2)

/-! Concrete fixtures used by witnesses and counterexamples. -/

/-- A passthrough serializer (the default `Serializer` behaviour on bytes). -/
def idSer : Serde := fun v _ _ => Except.ok v

/-- A serializer that always raises a serialization error. -/
def failSer : Serde := fun _ _ _ => Except.error "SerializationError"

/-- A producer with passthrough serializers and two well-behaved error
callbacks and one success callback registered. -/
def baseProducer : Producer :=
  { value_serializer := idSer,
    key_serializer := idSer,
    success_callbacks := some [⟨0, false⟩],
    error_callbacks := some [⟨0, false⟩, ⟨1, false⟩] }

/-- A delivered message fixture: topic `"t"`, key `b"k"`, value `b"v"`,
partition 0. -/
def testMsg : Msg :=
  { topic := "t", key := PyObj.bytes [107], value := PyObj.bytes [118],
    partition := 0 }

/-- The empty user configuration. -/
def emptyDict : Dict := fun _ => Option.none

/-- A user configuration overriding the `acks` default. -/
def userAcks : Dict :=
  fun k => if k = "acks" then some (CVal.str "1") else Option.none

/-- A producer whose first error callback and first success callback raise. -/
def raiseProducer : Producer :=
  { baseProducer with
      error_callbacks := some [⟨0, true⟩, ⟨1, false⟩],
      success_callbacks := some [⟨2, true⟩, ⟨3, false⟩] }

/-! Helper lemmas about the callback loop. -/

theorem invokeAll_no_raise (cbs : List Obs) (arg : CbArg)
    (h : ∀ c ∈ cbs, c.raises = false) :
    invokeAll cbs arg
      = (cbs.map (fun c => Effect.invokeCb c.id arg), Option.none) := by
  induction cbs with
  | nil => rfl
  | cons c rest ih =>
    have hc : c.raises = false := h c (by simp)
    have hrest : ∀ x ∈ rest, x.raises = false := fun x hx => h x (by simp [hx])
    simp [invokeAll, hc, ih hrest]

theorem invokeAll_raise (pre : List Obs) (c : Obs) (post : List Obs)
    (arg : CbArg)
    (hpre : ∀ x ∈ pre, x.raises = false) (hc : c.raises = true) :
    invokeAll (pre ++ c :: post) arg
      = (pre.map (fun x => Effect.invokeCb x.id arg)
           ++ [Effect.invokeCb c.id arg],
         some c.id) := by
  induction pre with
  | nil => simp [invokeAll, hc]
  | cons x rest ih =>
    have hx : x.raises = false := hpre x (by simp)
    have hrest : ∀ y ∈ rest, y.raises = false := fun y hy => hpre y (by simp [hy])
    simp [invokeAll, hx, ih hrest]

/-! Claim theorems. -/

/-- Claim C1: `produce` serializes the key unconditionally via the key
serializer; when the value is `None` (tombstone) the value serializer is
never consulted (the result is the same for every value serializer) and
`None` is forwarded as-is to the transport `produce`; when the value is
present — including present-but-empty — the serialized value is enqueued. -/
theorem produce_key_serialized_tombstone_passthrough
    (p : Producer) (vs : Serde) (topic : String) (key value : PyObj)
    (sync : Bool) :
    (Producer.produce { p with value_serializer := vs } topic key PyObj.none sync
       = Producer.produce p topic key PyObj.none sync)
  ∧ (∀ kb, p.key_serializer key topic true = Except.ok kb →
       Producer.produce p topic key PyObj.none sync
         = Except.ok (Effect.implProduce topic kb PyObj.none ::
             (if sync then Producer.flushEffects Timeout.none else [])))
  ∧ (∀ kb vb, value ≠ PyObj.none →
       p.key_serializer key topic true = Except.ok kb →
       p.value_serializer value topic false = Except.ok vb →
       Producer.produce p topic key value sync
         = Except.ok (Effect.implProduce topic kb vb ::
             (if sync then Producer.flushEffects Timeout.none else []))) := by
  refine ⟨?_, ?_, ?_⟩
  · unfold Producer.produce
    simp
  · intro kb hk
    unfold Producer.produce
    rw [hk]
    simp
  · intro kb vb hv hk hvs
    unfold Producer.produce
    rw [hk]
    simp [hv, hvs]

/-- Witness for C1 at concrete inputs: on a tombstone even an
always-raising value serializer leaves the call unchanged, the key
`b"k"` is enqueued with value `None`; a present-but-empty value `b""`
is serialized (here: passed through by the identity serializer). -/
theorem produce_key_serialized_tombstone_passthrough_witness :
    (Producer.produce { baseProducer with value_serializer := failSer }
        "t" (PyObj.bytes [107]) PyObj.none false
      = Producer.produce baseProducer "t" (PyObj.bytes [107]) PyObj.none false)
  ∧ Producer.produce baseProducer "t" (PyObj.bytes [107]) PyObj.none false
      = Except.ok [Effect.implProduce "t" (PyObj.bytes [107]) PyObj.none]
  ∧ Producer.produce baseProducer "t" (PyObj.bytes [107]) (PyObj.bytes []) false
      = Except.ok [Effect.implProduce "t" (PyObj.bytes [107]) (PyObj.bytes [])] := by
  obtain ⟨h1, h2, h3⟩ := produce_key_serialized_tombstone_passthrough
    baseProducer failSer "t" (PyObj.bytes [107]) (PyObj.bytes []) false
  refine ⟨h1, ?_, ?_⟩
  · have h := h2 (PyObj.bytes [107]) (by rfl)
    simpa using h
  · have h := h3 (PyObj.bytes [107]) (PyObj.bytes []) (by decide) (by rfl) (by rfl)
    simpa using h

/-- Claim C6: a successful `produce` enqueues exactly one message into the
transport; with `sync=true` it is followed by a blocking flush with no
timeout (the untimed `implFlush`) before returning, with `sync=false`
nothing follows the enqueue — no flush is performed. -/
theorem produce_sync_flush (p : Producer) (topic : String) (key value : PyObj)
    (sync : Bool) (effs : List Effect)
    (h : Producer.produce p topic key value sync = Except.ok effs) :
    ∃ kb vb, effs = Effect.implProduce topic kb vb ::
      (if sync then
        [Effect.log LogLevel.info "Flushing producer" [], Effect.implFlush]
      else []) := by
  unfold Producer.produce at h
  cases hk : p.key_serializer key topic true with
  | error e => rw [hk] at h; cases h
  | ok kb =>
    rw [hk] at h
    cases hv : (if value ≠ PyObj.none then p.value_serializer value topic false
                else Except.ok value) with
    | error e => rw [hv] at h; cases h
    | ok vb =>
      rw [hv] at h
      refine ⟨kb, vb, ?_⟩
      cases h
      rfl

/-- Witness for C6: concrete sync and async sends of key `b"k"`, value
`b"v"`; the sync call's effects end in the untimed flush, the async
call's effects are the lone enqueue. -/
theorem produce_sync_flush_witness :
    (∃ kb vb,
      [Effect.implProduce "t" (PyObj.bytes [107]) (PyObj.bytes [118]),
       Effect.log LogLevel.info "Flushing producer" [], Effect.implFlush]
        = Effect.implProduce "t" kb vb ::
            (if true then
              [Effect.log LogLevel.info "Flushing producer" [], Effect.implFlush]
            else []))
  ∧ (∃ kb vb,
      [Effect.implProduce "t" (PyObj.bytes [107]) (PyObj.bytes [118])]
        = Effect.implProduce "t" kb vb ::
            (if false then
              [Effect.log LogLevel.info "Flushing producer" [], Effect.implFlush]
            else [])) :=
  ⟨produce_sync_flush baseProducer "t" (PyObj.bytes [107]) (PyObj.bytes [118])
      true _ (by rfl),
   produce_sync_flush baseProducer "t" (PyObj.bytes [107]) (PyObj.bytes [118])
      false _ (by rfl)⟩

/-- Claim C7: a serialization error in the key serializer, or in the value
serializer on a present value, propagates synchronously out of `produce`
as that very error, and no transport effect (in particular no enqueue)
happens: serialization of key and value strictly precedes the enqueue. -/
theorem produce_serialization_error_precedes_enqueue
    (p : Producer) (topic : String) (key value : PyObj) (sync : Bool)
    (e : String) :
    (p.key_serializer key topic true = Except.error e →
       Producer.produce p topic key value sync = Except.error e)
  ∧ (∀ kb, p.key_serializer key topic true = Except.ok kb →
       value ≠ PyObj.none →
       p.value_serializer value topic false = Except.error e →
       Producer.produce p topic key value sync = Except.error e) := by
  constructor
  · intro hk
    unfold Producer.produce
    rw [hk]
  · intro kb hk hv hvs
    unfold Producer.produce
    rw [hk]
    simp [hv, hvs]

/-- Witness for C7: with an always-raising key serializer, and then with an
always-raising value serializer on a present value, `produce` returns the
serialization error and produces no effect list. -/
theorem produce_serialization_error_precedes_enqueue_witness :
    Producer.produce { baseProducer with key_serializer := failSer }
        "t" (PyObj.bytes [107]) (PyObj.bytes [118]) false
      = Except.error "SerializationError"
  ∧ Producer.produce { baseProducer with value_serializer := failSer }
        "t" (PyObj.bytes [107]) (PyObj.bytes [118]) false
      = Except.error "SerializationError" := by
  constructor
  · exact (produce_serialization_error_precedes_enqueue
      { baseProducer with key_serializer := failSer }
      "t" (PyObj.bytes [107]) (PyObj.bytes [118]) false
      "SerializationError").1 (by rfl)
  · exact (produce_serialization_error_precedes_enqueue
      { baseProducer with value_serializer := failSer }
      "t" (PyObj.bytes [107]) (PyObj.bytes [118]) false
      "SerializationError").2 (PyObj.bytes [107]) (by rfl) (by decide) (by rfl)

/-- Claim C10: `flush` forwards the timeout to the transport's timed flush
exactly when the timeout is truthy; any falsy timeout — `None`, and in
particular an explicit `0` — selects the untimed flush, which blocks
indefinitely. -/
theorem flush_timeout_truthiness (t : Timeout) :
    (∀ i : Int, t = Timeout.int i → i ≠ 0 →
       Producer.flushEffects t
         = [Effect.log LogLevel.info "Flushing producer" [],
            Effect.implFlushTimed i])
  ∧ (t.truthy = false →
       Producer.flushEffects t
         = [Effect.log LogLevel.info "Flushing producer" [],
            Effect.implFlush])
  ∧ Producer.flushEffects (Timeout.int 0)
      = [Effect.log LogLevel.info "Flushing producer" [],
         Effect.implFlush] := by
  refine ⟨?_, ?_, by rfl⟩
  · intro i ht hi
    subst ht
    simp [Producer.flushEffects, Timeout.truthy, Timeout.toVal, hi]
  · intro ht
    simp [Producer.flushEffects, ht]

/-- Witness for C10: a timeout of 5 reaches the timed flush with value 5;
a timeout of `None` takes the untimed flush. -/
theorem flush_timeout_truthiness_witness :
    Producer.flushEffects (Timeout.int 5)
      = [Effect.log LogLevel.info "Flushing producer" [],
         Effect.implFlushTimed 5]
  ∧ Producer.flushEffects Timeout.none
      = [Effect.log LogLevel.info "Flushing producer" [],
         Effect.implFlush] :=
  ⟨(flush_timeout_truthiness (Timeout.int 5)).1 5 rfl (by decide),
   (flush_timeout_truthiness Timeout.none).2.1 (by rfl)⟩

/-- Claim C3: for every user configuration and hostname, the configuration
handed to the wrapped Confluent producer binds the delivery-callback,
error-callback and throttle-callback slots to the producer's own handlers
(`_on_delivery`, `_on_error`, `_on_throttle`); since this holds for all
user dictionaries, any caller-supplied value for those keys is replaced
after the merge, and the producer's own dispatcher is the delivery hook. -/
theorem config_injects_producer_callbacks (hostname : String) (user : Dict) :
    producerConfig hostname user "on_delivery"
        = some (CVal.handler Handler.onDelivery)
  ∧ producerConfig hostname user "error_cb"
        = some (CVal.handler Handler.onError)
  ∧ producerConfig hostname user "throttle_cb"
        = some (CVal.handler Handler.onThrottle) := by
  refine ⟨?_, ?_, ?_⟩ <;> simp [producerConfig, Dict.insert]

/-- Counterexample to claim C5 as stated: outside the three reserved
callback keys the equality with the plain default/user merge fails, because
`__init__` also injects `stats_cb`: with an empty user configuration the
transport sees a `stats_cb` binding while the plain merge has none. -/
theorem config_merge_stats_cb_cex :
    "stats_cb" ∉ ["on_delivery", "error_cb", "throttle_cb"]
  ∧ producerConfig "host" emptyDict "stats_cb"
      ≠ Dict.merge (DEFAULT_CONFIG "host") emptyDict "stats_cb" := by
  exact ⟨by decide, by decide⟩

/-- Claim C5 (amended: ignoring all four injected callback keys, including
the statistics callback): the transport configuration agrees with the
right-biased merge of the defaults with the user mapping on every other
key; on that merge the caller wins on every collision and the defaults
show through where the caller is silent; and the defaults set
`acks = "all"`, `client.id = hostname`, `max.in.flight = 1`,
`queue.buffering.max.ms = 100`, `statistics.interval.ms = 15000`. -/
theorem config_merge_right_biased (hostname : String) (user : Dict) :
    (∀ k, k ∉ callbackKeys →
       producerConfig hostname user k
         = Dict.merge (DEFAULT_CONFIG hostname) user k)
  ∧ (∀ k v, user k = some v →
       Dict.merge (DEFAULT_CONFIG hostname) user k = some v)
  ∧ (∀ k, user k = Option.none →
       Dict.merge (DEFAULT_CONFIG hostname) user k = DEFAULT_CONFIG hostname k)
  ∧ DEFAULT_CONFIG hostname "acks" = some (CVal.str "all")
  ∧ DEFAULT_CONFIG hostname "client.id" = some (CVal.str hostname)
  ∧ DEFAULT_CONFIG hostname "max.in.flight" = some (CVal.int 1)
  ∧ DEFAULT_CONFIG hostname "queue.buffering.max.ms" = some (CVal.int 100)
  ∧ DEFAULT_CONFIG hostname "statistics.interval.ms" = some (CVal.int 15000)
    := by
  refine ⟨?_, ?_, ?_, ?_, ?_, ?_, ?_, ?_⟩
  · intro k hk
    simp [callbackKeys] at hk
    obtain ⟨h1, h2, h3, h4⟩ := hk
    simp [producerConfig, Dict.insert, h1, h2, h3, h4]
  · intro k v hv
    simp [Dict.merge, hv]
  · intro k hv
    simp [Dict.merge, hv]
  · simp [DEFAULT_CONFIG]
  · simp [DEFAULT_CONFIG]
  · simp [DEFAULT_CONFIG]
  · simp [DEFAULT_CONFIG]
  · simp [DEFAULT_CONFIG]

/-- Witness for C5 at concrete inputs: `acks` is not a callback key, the
transport configuration there equals the plain merge; the caller's
override `"1"` wins over the default `"all"`; and where the caller is
silent the default shows through. -/
theorem config_merge_right_biased_witness :
    producerConfig "myhost" userAcks "acks"
      = Dict.merge (DEFAULT_CONFIG "myhost") userAcks "acks"
  ∧ Dict.merge (DEFAULT_CONFIG "myhost") userAcks "acks" = some (CVal.str "1")
  ∧ Dict.merge (DEFAULT_CONFIG "myhost") userAcks "queue.buffering.max.ms"
      = DEFAULT_CONFIG "myhost" "queue.buffering.max.ms" := by
  obtain ⟨h1, h2, h3, _⟩ := config_merge_right_biased "myhost" userAcks
  exact ⟨h1 "acks" (by decide),
         h2 "acks" (CVal.str "1") (by rfl),
         h3 "queue.buffering.max.ms" (by rfl)⟩

/-- Claim C8: `__init__` registers the atexit hook strictly before the
wrapped producer is created (so before any send is possible), and the
registered hook `_close` performs exactly a flush with `timeout=None`,
which reaches the untimed, indefinitely blocking transport flush and never
the timed one. -/
theorem init_registers_exit_flush :
    Effect.registerAtexit ∈ Producer.initEffects
  ∧ Producer.initEffects.indexOf Effect.registerAtexit
      < Producer.initEffects.indexOf Effect.createImpl
  ∧ Producer.closeEffects = Producer.flushEffects Timeout.none
  ∧ Effect.implFlush ∈ Producer.closeEffects
  ∧ (∀ i : Int, Effect.implFlushTimed i ∉ Producer.closeEffects) := by
  refine ⟨by decide, by decide, by rfl, by decide, ?_⟩
  intro i
  simp [Producer.closeEffects, Producer.flushEffects, Timeout.truthy]

/-- Claim C2, evaluated at the failing input (a successful delivery of the
message with topic `"t"`, key `b"k"`, partition 0, with one registered
success observer): the dispatcher logs at debug with topic, key and
partition and invokes the observer exactly once, but it passes `cb(err)`
with the `None` error — not the delivery outcome/message the spec
promises. -/
theorem on_delivery_success_passes_none_not_outcome :
    Producer.onDelivery baseProducer Option.none testMsg
      = ([logSuccess testMsg, Effect.invokeCb 0 (CbArg.errArg Option.none)],
         Option.none) := by
  rfl

/-- Counterexample to claim C4 as stated: with error callbacks
`[raising 0, well-behaved 1]` on a failed delivery, the observer
registered after the raiser is never invoked and the exception escapes
the dispatcher (the escaping-exception component is `some 0`, not
`none`), so observer failures are neither caught nor logged. -/
theorem on_delivery_observer_exception_cex :
    Producer.onDelivery raiseProducer (some "boom") testMsg
      = ([logFailure "boom" testMsg,
          Effect.invokeCb 0 (CbArg.msgErr testMsg "boom")],
         some 0)
  ∧ Effect.invokeCb 1 (CbArg.msgErr testMsg "boom")
      ∉ (Producer.onDelivery raiseProducer (some "boom") testMsg).1
  ∧ (Producer.onDelivery raiseProducer (some "boom") testMsg).2
      ≠ Option.none := by
  exact ⟨by rfl, by decide, by decide⟩

/-- Claim C4 (amended): if a registered observer raises, the observers
before it run normally, the raiser is invoked, the observers registered
after it are NOT invoked, and the exception propagates uncaught out of
the delivery handler — in both the failure and the success branch. -/
theorem on_delivery_observer_exception_propagates
    (p : Producer) (pre : List Obs) (c : Obs) (post : List Obs)
    (e : String) (msg : Msg)
    (hpre : ∀ x ∈ pre, x.raises = false) (hc : c.raises = true) :
    (p.error_callbacks = some (pre ++ c :: post) →
       Producer.onDelivery p (some e) msg
         = (logFailure e msg ::
             (pre.map (fun x => Effect.invokeCb x.id (CbArg.msgErr msg e))
               ++ [Effect.invokeCb c.id (CbArg.msgErr msg e)]),
            some c.id))
  ∧ (p.success_callbacks = some (pre ++ c :: post) →
       Producer.onDelivery p Option.none msg
         = (logSuccess msg ::
             (pre.map (fun x => Effect.invokeCb x.id (CbArg.errArg Option.none))
               ++ [Effect.invokeCb c.id (CbArg.errArg Option.none)]),
            some c.id)) := by
  constructor
  · intro hcb
    simp [Producer.onDelivery, hcb, invokeAll_raise pre c post _ hpre hc]
  · intro hcb
    simp [Producer.onDelivery, hcb, invokeAll_raise pre c post _ hpre hc]

/-- Witness for C4 (amended), on `raiseProducer`: in the failure branch
callback 0 raises first so callback 1 never runs and `some 0` escapes; in
the success branch callback 2 raises first so callback 3 never runs and
`some 2` escapes. -/
theorem on_delivery_observer_exception_propagates_witness :
    Producer.onDelivery raiseProducer (some "boom") testMsg
      = (logFailure "boom" testMsg ::
          (([] : List Obs).map
              (fun x => Effect.invokeCb x.id (CbArg.msgErr testMsg "boom"))
            ++ [Effect.invokeCb 0 (CbArg.msgErr testMsg "boom")]),
         some 0)
  ∧ Producer.onDelivery raiseProducer Option.none testMsg
      = (logSuccess testMsg ::
          (([] : List Obs).map
              (fun x => Effect.invokeCb x.id (CbArg.errArg Option.none))
            ++ [Effect.invokeCb 2 (CbArg.errArg Option.none)]),
         some 2) :=
  ⟨(on_delivery_observer_exception_propagates raiseProducer [] ⟨0, true⟩
      [⟨1, false⟩] "boom" testMsg (by decide) (by rfl)).1 (by rfl),
   (on_delivery_observer_exception_propagates raiseProducer [] ⟨2, true⟩
      [⟨3, false⟩] "boom" testMsg (by decide) (by rfl)).2 (by rfl)⟩

/-- Claim C9: on a failed delivery with well-behaved observers, the
dispatcher emits the warning log carrying topic, key, partition and the
error detail, then invokes every registered error observer, in
registration (list) order, each exactly once, passing `(msg, err)`; no
exception escapes. -/
theorem on_delivery_failure_notifies_in_order
    (p : Producer) (cbs : List Obs) (e : String) (msg : Msg)
    (hcb : p.error_callbacks = some cbs)
    (hok : ∀ c ∈ cbs, c.raises = false) :
    Producer.onDelivery p (some e) msg
      = (logFailure e msg ::
           cbs.map (fun c => Effect.invokeCb c.id (CbArg.msgErr msg e)),
         Option.none) := by
  simp [Producer.onDelivery, hcb, invokeAll_no_raise cbs _ hok]

/-- Witness for C9: the two registered error observers of `baseProducer`
are invoked in order 0 then 1, each with the message and the error. -/
theorem on_delivery_failure_notifies_in_order_witness :
    Producer.onDelivery baseProducer (some "boom") testMsg
      = (logFailure "boom" testMsg ::
          ([⟨0, false⟩, ⟨1, false⟩] : List Obs).map
            (fun c => Effect.invokeCb c.id (CbArg.msgErr testMsg "boom")),
         Option.none) :=
  on_delivery_failure_notifies_in_order baseProducer
    [⟨0, false⟩, ⟨1, false⟩] "boom" testMsg (by rfl) (by decide)

end Kafkian
